import Mathlib

/-!
Wintermute conversation-orchestration pipeline: a shallow embedding.

This file embeds the core of the `wintermute` terminal chat client in Lean:
the persona/character data model (`models/persona.py`), the generation
gateway streaming decoder (`services/ollama_client.py`), the memory gateway
(`services/memory_client.py`), the conversation orchestrator
(`services/message_handler.py`), the character selection pane
(`ui/character_pane.py`), the character manager
(`services/character_manager.py`) and the turn-driving UI callback
(`app.py`).

External effects (the memory HTTP backend and the LLM HTTP backend) are
modelled by an explicit environment record fixing, per turn, the outcome of
the memory query, the byte stream the generation backend produces, and the
outcome of each memory add call.  The orchestrator is embedded as a function
from its inputs and that environment to an observable event trace (memory
query calls, the generation call, yielded chunks, memory store calls) plus a
turn result.  Async-generator semantics (the store code after the yield loop
runs only when the consumer drains the generator to its natural end; closing
the generator early raises GeneratorExit at the suspended yield and skips
that code) are captured by a `consumed` parameter describing how far the
consumer drives the generator.
-/

namespace Wintermute

/-- Python truthiness of an `Optional[str]`: `None` and `""` are falsy. -/
def pyFalsy : Option String → Bool
  | none => true
  | some s => s.isEmpty

/-- Python `str.capitalize()`: first character upper-cased, the rest
lower-cased. -/
def pyCapitalize (s : String) : String :=
  match s.data with
  | [] => ""
  | c :: cs => String.mk (c.toUpper :: cs.map Char.toLower)

/-- Python `lst[-k:]`: the last `k` elements of a list. -/
def pyTakeLast (k : Nat) (xs : List α) : List α :=
  xs.drop (xs.length - k)

/-- Python `str.strip()`: drop leading and trailing whitespace. -/
def pyStrip (s : String) : String :=
  String.mk
    (((s.data.dropWhile Char.isWhitespace).reverse.dropWhile
        Char.isWhitespace).reverse)

/-! Section: Data model -/

/-- Model of `models/message.py`: role of the message sender (`MessageRole`). -/
inductive MessageRole
  | user
  | assistant
  | system
deriving DecidableEq, Repr

/-- The `.value` of the `MessageRole` string enum. -/
def MessageRole.value : MessageRole → String
  | .user => "user"
  | .assistant => "assistant"
  | .system => "system"

/-- Model of `models/message.py`: a chat message.  The `timestamp` field (a wall-clock
creation time never read by the orchestrator) is not modelled; `metadata` is
the open string-keyed map. -/
structure Message where
  role : MessageRole
  content : String
  metadata : List (String × String) := []
deriving DecidableEq, Repr

/-- Modelled from the spec: `models/character.py` is absent from the source
tree (only its importers are present); per the spec a character/persona has
`id, name, system_prompt, description?, temperature?(default 0.7),
traits?(default empty)`, mirroring the `Persona` model of
`models/persona.py`.  `temperature` is modelled as a rational. -/
structure Character where
  id : String
  name : String
  system_prompt : String
  description : String := ""
  temperature : Rat := 7/10
  traits : List String := []
deriving DecidableEq, Repr

/-- A ranked memory item as returned by the memory backend: the orchestrator
reads only its `content` field (`mem['content']`). -/
structure MemoryItem where
  content : String
  score : Option Rat := none
deriving DecidableEq, Repr

/-! Section: Persona model validation (`models/persona.py`)

`Persona` is a pydantic model: `id`, `name` and `system_prompt` are required
fields (missing ⇒ `ValidationError`), `description` defaults to `""`,
`temperature` defaults to `0.7` and carries `ge=0.0, le=2.0` bounds
(outside ⇒ `ValidationError`), `traits` defaults to `[]`.  No other
constraint is declared: in particular no minimum length on any string
field. -/

/-- A constructed `Persona` (`models/persona.py`). -/
structure Persona where
  id : String
  name : String
  system_prompt : String
  description : String
  temperature : Rat
  traits : List String
deriving DecidableEq, Repr

/-- The keyword arguments handed to the `Persona` pydantic constructor:
`none` means the field was not supplied. -/
structure PersonaInput where
  id : Option String := none
  name : Option String := none
  system_prompt : Option String := none
  description : Option String := none
  temperature : Option Rat := none
  traits : Option (List String) := none

/-- Pydantic validation of `Persona(**input)`: required fields must be
present, `temperature` must satisfy `ge=0.0, le=2.0`; defaults fill the
rest.  Mirrors `models/persona.py` field declarations. -/
def Persona.validate (inp : PersonaInput) : Except String Persona :=
  match inp.id, inp.name, inp.system_prompt with
  | some i, some n, some sp =>
    let t := inp.temperature.getD (7/10)
    if 0 ≤ t ∧ t ≤ 2 then
      .ok { id := i, name := n, system_prompt := sp,
            description := inp.description.getD "",
            temperature := t, traits := inp.traits.getD [] }
    else
      .error "temperature: outside ge=0.0 le=2.0"
  | _, _, _ => .error "field required"

/-! Section: Generation gateway (`services/ollama_client.py`) -/

/-- One newline-delimited line read from the streaming `POST /api/generate`
response, as seen after `json.loads`:
* `empty` — a falsy (empty) line, skipped by `if line:`;
* `malformed` — `json.loads` raises `JSONDecodeError`;
* `obj response done` — a JSON object; `response` is its `"response"` field
  when present, `done` is `data.get("done", False)`. -/
inductive Fragment
  | empty
  | malformed
  | obj (response : Option String) (done : Bool)
deriving DecidableEq, Repr

/-- The chunks yielded by `OllamaClient.stream` for a given fragment
sequence.  Mirrors the loop body: a line is skipped when falsy or
malformed; a parsed object is yielded exactly when `"response" in data and
not data.get("done", False)`; iteration always continues to the next
line. -/
def streamYields : List Fragment → List String
  | [] => []
  | .empty :: rest => streamYields rest
  | .malformed :: rest => streamYields rest
  | .obj none _ :: rest => streamYields rest
  | .obj (some r) done :: rest =>
    if done then streamYields rest else r :: streamYields rest

/-- What the generation backend does for this turn: refuse the connection
(httpx `ConnectError`, re-raised by the client as
`ConnectionError("Failed to connect to Ollama: ...")`), or serve a finite
sequence of newline-delimited fragments. -/
inductive StreamOutcome
  | connectError (msg : String)
  | fragments (fs : List Fragment)
deriving DecidableEq, Repr

/-! Section: Memory gateway (`services/memory_client.py`) -/

/-- An exception raised by `MemoryClient.store`: the explicit `ValueError`
for a missing owner, or an error propagated from the OpenMemory SDK
`add` call. -/
inductive MemErr
  | valueError (msg : String)
  | serviceError (msg : String)
deriving DecidableEq, Repr

/-- Per-turn behaviour of the external services: the outcome of the
OpenMemory `query` call, the generation backend behaviour, and the outcomes
of the first and second OpenMemory `add` calls of the turn
(`Except.error` means the SDK call raises). -/
structure Env where
  queryOutcome : Except String (List MemoryItem)
  streamOutcome : StreamOutcome
  store1 : Except String String
  store2 : Except String String
deriving Repr

/-- Model of `MemoryClient.query`: inside a `try` that absorbs every exception into
`[]`, a falsy `user_id` returns `[]`, otherwise the SDK query's `matches`
are returned; an SDK error yields `[]`. -/
def MemoryClient.query (env : Env) (user_id : Option String) :
    List MemoryItem :=
  if pyFalsy user_id then []
  else
    match env.queryOutcome with
    | .error _ => []
    | .ok ms => ms

/-- Model of `MemoryClient.store`: raises `ValueError` when `user_id` is falsy,
otherwise performs the SDK `add` call (whose outcome is the given
`addOutcome`) and propagates its error; on success returns the new id. -/
def MemoryClient.store (addOutcome : Except String String)
    (user_id : Option String) : Except MemErr String :=
  if pyFalsy user_id then
    .error (.valueError "user_id (character_id) is required for storing memories")
  else
    match addOutcome with
    | .error e => .error (.serviceError e)
    | .ok newId => .ok newId

/-! Section: Conversation orchestrator (`services/message_handler.py`) -/

/-- An observable action of one turn, in order of occurrence:
a `MemoryClient.query` call, the `OllamaClient.stream` generation call
(with the prompt, combined system prompt and temperature fixed for the
turn), a chunk yielded to the consumer, or a `MemoryClient.store` call
with its content, tags and owner id. -/
inductive Event
  | queryCall (text : String) (limit : Nat) (userId : Option String)
  | generateCall (prompt : String) (systemPrompt : String) (temperature : Rat)
  | yieldChunk (s : String)
  | storeCall (content : String) (tags : List String) (userId : String)
deriving DecidableEq, Repr

/-- Whether an event is a memory store call. -/
def Event.isStore : Event → Bool
  | .storeCall _ _ _ => true
  | _ => false

/-- The chunk a yield event delivers to the consumer, if the event is a
yield. -/
def Event.yielded : Event → Option String
  | .yieldChunk s => some s
  | _ => none

/-- Model of `MessageHandler._build_memory_context`: empty input gives `""`;
otherwise the top 3 items are rendered as `- {content}` bullets under the
fixed `Relevant context:` header. -/
def MessageHandler.build_memory_context (memories : List MemoryItem) : String :=
  if memories.isEmpty then ""
  else
    "Relevant context:\n" ++
      String.intercalate "\n" ((memories.take 3).map (fun mem => "- " ++ mem.content))

/-- Model of `MessageHandler._build_conversation_context`: empty input gives `""`;
otherwise the last 5 messages are rendered as `{Role}: {content}` lines
under the fixed `Recent conversation:` header. -/
def MessageHandler.build_conversation_context (conversation_history : List Message) :
    String :=
  if conversation_history.isEmpty then ""
  else
    "Recent conversation:\n" ++
      String.intercalate "\n"
        ((pyTakeLast 5 conversation_history).map
          (fun msg => pyCapitalize msg.role.value ++ ": " ++ msg.content))

/-- Model of `MessageHandler._build_prompt`: the non-empty context blocks, followed by
`User: {user_message}`, joined by blank lines. -/
def MessageHandler.build_prompt (user_message memory_context conversation_context :
    String) : String :=
  String.intercalate "\n\n"
    ((if memory_context.isEmpty then [] else [memory_context]) ++
     (if conversation_context.isEmpty then [] else [conversation_context]) ++
     ["User: " ++ user_message])

/-- Model of `MessageHandler._store_conversation`: inside one `try` that absorbs any
exception, store `User said: {user_message}` with tags
`["conversation", "user"]` then `Assistant replied: {assistant_response}`
with tags `["conversation", "assistant"]`, both owned by `character_id`.
Returns the trace of `MemoryClient.store` calls actually issued: a failure
of the first call skips the second; no failure propagates. -/
def MessageHandler.store_conversation (env : Env)
    (user_message assistant_response character_id : String) : List Event :=
  let ev1 := Event.storeCall ("User said: " ++ user_message)
    ["conversation", "user"] character_id
  match MemoryClient.store env.store1 (some character_id) with
  | .error _ => [ev1]
  | .ok _ =>
    let ev2 := Event.storeCall ("Assistant replied: " ++ assistant_response)
      ["conversation", "assistant"] character_id
    match MemoryClient.store env.store2 (some character_id) with
    | .error _ => [ev1, ev2]
    | .ok _ => [ev1, ev2]

/-- How a turn ends for the consumer of the chunk stream. -/
inductive TurnResult
  | ok
  | error (msg : String)
  | closed
deriving DecidableEq, Repr

/-- Model of `MessageHandler.process_message_streaming` as an event trace.

`consumed = none` models a consumer that drives the async generator to its
natural end (the `async for` loop of the caller): every chunk is yielded
and the post-loop `_store_conversation` call runs.  `consumed = some k`
with `1 ≤ k ≤ ` number of chunks models a consumer that stops after
receiving `k` chunks and closes the generator: `GeneratorExit` is raised at
the suspended `yield`, propagates, and the post-loop store call never runs.
(`k = 0` or `k` beyond the chunk count cannot interrupt the loop early: the
generator reaches its natural end as with `none`.)

A `ConnectError` at stream-open is re-raised by `OllamaClient.stream` as
`ConnectionError` and propagates out of the generator to its consumer. -/
def MessageHandler.process_message_streaming (env : Env)
    (global_system_prompt user_message : String) (character : Character)
    (conversation_history : List Message) (consumed : Option Nat) :
    List Event × TurnResult :=
  let memories := MemoryClient.query env (some character.id)
  let memory_context := MessageHandler.build_memory_context memories
  let conversation_context :=
    MessageHandler.build_conversation_context conversation_history
  let full_prompt :=
    MessageHandler.build_prompt user_message memory_context conversation_context
  let combined_system_prompt :=
    global_system_prompt ++ "\n\n" ++ character.system_prompt
  let qEv := Event.queryCall user_message 5 (some character.id)
  let gEv := Event.generateCall full_prompt combined_system_prompt
    character.temperature
  match env.streamOutcome with
  | .connectError msg =>
    ([qEv, gEv], .error ("Failed to connect to Ollama: " ++ msg))
  | .fragments fs =>
    let chunks := streamYields fs
    let naturalEnd :=
      ([qEv, gEv] ++ chunks.map Event.yieldChunk ++
        MessageHandler.store_conversation env user_message
          (String.join chunks) character.id,
       TurnResult.ok)
    match consumed with
    | none => naturalEnd
    | some k =>
      if 1 ≤ k ∧ k ≤ chunks.length then
        ([qEv, gEv] ++ (chunks.take k).map Event.yieldChunk, .closed)
      else naturalEnd

/-! Section: Turn-driving UI callback (`app.py`, `WintermuteApp.on_input_submitted`)

The callback strips the submitted value and returns early when empty;
otherwise it appends the user message, appends an empty assistant
placeholder carrying the character name, drives
`process_message_streaming` to its natural end accumulating the chunks
into the placeholder, and on any exception appends one system message
`Error: {str(e)}`.  Chat-pane rendering is not modelled; the observable
output is the list of messages appended to the transcript (with the
placeholder at its final content) plus the turn's event trace. -/

/-- Model of `WintermuteApp.on_input_submitted` for a submitted input value, given
the selected character and the recent history window passed to the
handler.  Returns the turn's event trace and the messages appended to the
chat transcript. -/
def WintermuteApp.on_input_submitted (env : Env)
    (global_system_prompt value : String) (character : Character)
    (conversation_history : List Message) : List Event × List Message :=
  let user_input := pyStrip value
  if user_input.isEmpty then ([], [])
  else
    let userMsg : Message := { role := .user, content := user_input }
    let placeholder : Message :=
      { role := .assistant, content := "",
        metadata := [("character_name", character.name)] }
    let (events, result) := MessageHandler.process_message_streaming env
      global_system_prompt user_input character conversation_history none
    let response_text := String.join (events.filterMap Event.yielded)
    match result with
    | .error msg =>
      (events, [userMsg, placeholder,
        { role := .system, content := "Error: " ++ msg }])
    | _ =>
      (events, [userMsg, { placeholder with content := response_text }])

/-! Section: Character selection pane (`ui/character_pane.py`) -/

/-- The selection state of `CharacterPane`: the character list and the
reactive `selected_index` (a Python `int`, hence modelled as `Int`; it is
initialised to 0 and only ever assigned results of `%` by the pane's own
methods). -/
structure CharacterPane where
  characters : List Character
  selected_index : Int
deriving DecidableEq, Repr

/-- Model of `CharacterPane.next_character`: on a non-empty character list, set
`selected_index` to `(selected_index + 1) % len(characters)` (Python `%`,
i.e. `Int.emod`); no-op on an empty list. -/
def CharacterPane.next_character (p : CharacterPane) : CharacterPane :=
  if p.characters.isEmpty then p
  else { p with selected_index := (p.selected_index + 1) % (p.characters.length : Int) }

/-- Model of `CharacterPane.previous_character`: on a non-empty character list, set
`selected_index` to `(selected_index - 1) % len(characters)` (Python `%`,
i.e. `Int.emod`, hence non-negative for a positive modulus); no-op on an
empty list. -/
def CharacterPane.previous_character (p : CharacterPane) : CharacterPane :=
  if p.characters.isEmpty then p
  else { p with selected_index := (p.selected_index - 1) % (p.characters.length : Int) }

/-! Section: Character manager (`services/character_manager.py`)

`load_characters` reads the character directory; its result is a list of
successfully validated characters, supplied here as a parameter (the
directory is an external collaborator).  `active_index` is initialised to 0
at construction and is **not** touched by `load_characters`/`reload`. -/

/-- The in-memory state of `CharacterManager`. -/
structure CharacterManager where
  characters : List Character
  active_index : Nat
deriving DecidableEq, Repr

/-- Model of `CharacterManager.__init__`: store the directory, set `active_index`
to 0 and run `load_characters`, which yields `loaded`. -/
def CharacterManager.init (loaded : List Character) : CharacterManager :=
  { characters := loaded, active_index := 0 }

/-- Model of `CharacterManager.reload` and `load_characters`: replace the character
list with the directory's current content; `active_index` is left
unchanged. -/
def CharacterManager.reload (m : CharacterManager) (loaded : List Character) :
    CharacterManager :=
  { m with characters := loaded }

/-- Model of `CharacterManager.get_character_by_id`: the first loaded character
with the given id, if any. -/
def CharacterManager.get_character_by_id (m : CharacterManager)
    (character_id : String) : Option Character :=
  m.characters.find? (fun c => c.id == character_id)

/-- Model of `CharacterManager.set_active_character`: set `active_index` to the
index of the first character with the given id; leave the selection
unchanged when the id is unknown. -/
def CharacterManager.set_active_character (m : CharacterManager)
    (character_id : String) : CharacterManager :=
  match m.characters.findIdx? (fun c => c.id == character_id) with
  | some i => { m with active_index := i }
  | none => m

/-- Model of `CharacterManager.create_character`: raise `ValueError` on a
duplicate id, otherwise write the definition file and reload; `loaded` is
the directory content after the write. -/
def CharacterManager.create_character (m : CharacterManager) (c : Character)
    (loaded : List Character) : Except String CharacterManager :=
  match m.get_character_by_id c.id with
  | some _ => .error ("Character with ID already exists: " ++ c.id)
  | none => .ok (m.reload loaded)

/-- Model of `CharacterManager.update_character`: raise `ValueError` when the id is
unknown, otherwise overwrite the definition file and reload; `loaded` is
the directory content after the write. -/
def CharacterManager.update_character (m : CharacterManager) (c : Character)
    (loaded : List Character) : Except String CharacterManager :=
  match m.get_character_by_id c.id with
  | none => .error ("Character with ID does not exist: " ++ c.id)
  | some _ => .ok (m.reload loaded)

/-- Model of `CharacterManager.get_active_character`: `None` when no characters are
loaded, otherwise `self.characters[self.active_index]` — which raises
`IndexError` (modelled as `.error`) when `active_index` is out of
bounds. -/
def CharacterManager.get_active_character (m : CharacterManager) :
    Except String (Option Character) :=
  if m.characters.isEmpty then .ok none
  else
    match m.characters.get? m.active_index with
    | some c => .ok (some c)
    | none => .error "IndexError: list index out of range"

/-- The selection invariant claimed of `CharacterManager`: the loaded set
is empty or `active_index` is a valid index into it. -/
def CharacterManager.indexInvariant (m : CharacterManager) : Prop :=
  m.characters = [] ∨ m.active_index < m.characters.length

/-! Section: Spec-side definitions for refinement claims -/

/-- The wording of the spec for the stream decoder, stated independently of
the code: the yielded chunks are exactly the `response` fields of the
well-formed fragments that carry a `response` and are not marked `done`,
in input order; falsy lines, malformed fragments and `done`-marked
fragments contribute nothing. -/
def streamYieldsSpec (fs : List Fragment) : List String :=
  fs.filterMap (fun f =>
    match f with
    | .obj (some r) false => some r
    | _ => none)

/-- The wording of the spec for `buildMemoryContext`, stated independently
of the code: at most the top 3 items, each rendered as a bullet of its
content, prefixed with a fixed header; the empty string when there are no
items. -/
def buildMemoryContextSpec (items : List MemoryItem) : String :=
  match items with
  | [] => ""
  | _ =>
    "Relevant context:\n" ++
      String.intercalate "\n" ((items.take 3).map (fun it => "- " ++ it.content))

/-! Section: Concrete fixtures for witnesses and counterexamples -/

/-- The `default` persona of the spec scenario. -/
def defaultCharacter : Character :=
  { id := "default", name := "Default", system_prompt := "You are helpful." }

/-- Environment of the spec scenario: memory query returns `[]`, the
generation stream yields `Hi`, ` there`, `!` then `done=true`, both store
calls succeed. -/
def envHello : Env :=
  { queryOutcome := .ok [],
    streamOutcome := .fragments
      [.obj (some "Hi") false, .obj (some " there") false,
       .obj (some "!") false, .obj none true],
    store1 := .ok "m1", store2 := .ok "m2" }

/-- Environment in which the generation backend refuses the connection. -/
def envRefused : Env :=
  { queryOutcome := .ok [],
    streamOutcome := .connectError "connection refused",
    store1 := .ok "m1", store2 := .ok "m2" }

/-- Environment in which the first memory add call of the turn raises. -/
def envStoreFails : Env :=
  { queryOutcome := .ok [],
    streamOutcome := .fragments [.obj (some "Hi") false, .obj none true],
    store1 := .error "boom", store2 := .ok "m2" }

/-- Environment in which the memory query raises. -/
def envQueryFails : Env :=
  { queryOutcome := .error "memory down",
    streamOutcome := .fragments [.obj (some "Hi") false, .obj none true],
    store1 := .ok "m1", store2 := .ok "m2" }

/-- Environment whose generation stream yields the two chunks `a`, `b`. -/
def envTwoChunks : Env :=
  { queryOutcome := .ok [],
    streamOutcome := .fragments [.obj (some "a") false, .obj (some "b") false],
    store1 := .ok "m1", store2 := .ok "m2" }

/-- A first concrete character for the character-manager scenarios. -/
def charA : Character := { id := "a", name := "A", system_prompt := "pa" }

/-- A second concrete character for the character-manager scenarios. -/
def charB : Character := { id := "b", name := "B", system_prompt := "pb" }

/-! Section: Helper lemmas -/

/-- Unfolding `filterMap Event.yielded` over a pure chunk list. -/
theorem filterMap_yielded_map_yieldChunk (l : List String) :
    (l.map Event.yieldChunk).filterMap Event.yielded = l := by
  induction l with
  | nil => rfl
  | cons a t ih => simp [Event.yielded, ih]

/-- Yield events are not store events. -/
theorem countP_isStore_map_yieldChunk (l : List String) :
    (l.map Event.yieldChunk).countP Event.isStore = 0 := by
  induction l with
  | nil => rfl
  | cons a t ih => simp [List.countP_cons, Event.isStore, ih]

/-- Composition form of `filterMap_yielded_map_yieldChunk`. -/
theorem filterMap_yielded_comp (l : List String) :
    List.filterMap (Event.yielded ∘ Event.yieldChunk) l = l := by
  induction l with
  | nil => rfl
  | cons a t ih => simp [Event.yielded, Function.comp, ih]

/-- A truncated chunk list still extracts to itself. -/
theorem filterMap_yielded_take_yieldChunk (k : Nat) (l : List String) :
    ((l.map Event.yieldChunk).take k).filterMap Event.yielded = l.take k := by
  rw [← List.map_take]
  exact filterMap_yielded_map_yieldChunk _

/-- A truncated chunk list contains no store events. -/
theorem countP_isStore_take_yieldChunk (k : Nat) (l : List String) :
    ((l.map Event.yieldChunk).take k).countP Event.isStore = 0 := by
  rw [← List.map_take]
  exact countP_isStore_map_yieldChunk _

/-- The store phase yields no chunks, whatever the add outcomes. -/
theorem filterMap_yielded_store_conversation (env : Env) (u a c : String) :
    (MessageHandler.store_conversation env u a c).filterMap Event.yielded = [] := by
  unfold MessageHandler.store_conversation
  cases MemoryClient.store env.store1 (some c) with
  | error e => simp [Event.yielded]
  | ok v =>
    cases MemoryClient.store env.store2 (some c) with
    | error e => simp [Event.yielded]
    | ok w => simp [Event.yielded]

/-- Subtracting then reducing mod `n` commutes with a prior reduction. -/
theorem emod_sub_one_emod (a n : Int) : (a % n - 1) % n = (a - 1) % n := by
  rw [Int.sub_emod, Int.emod_emod_of_dvd _ dvd_rfl, ← Int.sub_emod]

/-- Adding then reducing mod `n` commutes with a prior reduction. -/
theorem emod_add_one_emod (a n : Int) : (a % n + 1) % n = (a + 1) % n := by
  rw [Int.add_emod, Int.emod_emod_of_dvd _ dvd_rfl, ← Int.add_emod]

/-- Wrapping one step forward then one step back restores a valid index. -/
theorem emod_roundtrip_next_prev (i n : Int) (h0 : 0 ≤ i) (h1 : i < n) :
    ((i + 1) % n - 1) % n = i := by
  rw [emod_sub_one_emod]
  have h : i + 1 - 1 = i := by ring
  rw [h, Int.emod_eq_of_lt h0 h1]

/-- Wrapping one step back then one step forward restores a valid index. -/
theorem emod_roundtrip_prev_next (i n : Int) (h0 : 0 ≤ i) (h1 : i < n) :
    ((i - 1) % n + 1) % n = i := by
  rw [emod_add_one_emod]
  have h : i - 1 + 1 = i := by ring
  rw [h, Int.emod_eq_of_lt h0 h1]

/-! Section: Claims -/

/-- C7: for every list of memory items, `_build_memory_context` includes at
most the first 3 items, in input order, each rendered as a bullet of its
content under the fixed header (the spec-side rendering
`buildMemoryContextSpec`), and on the empty list it returns the empty
string with no header. -/
theorem c7_build_memory_context (items : List MemoryItem) :
    MessageHandler.build_memory_context items = buildMemoryContextSpec items ∧
    MessageHandler.build_memory_context [] = "" := by
  constructor
  · cases items <;> simp [MessageHandler.build_memory_context, buildMemoryContextSpec]
  · rfl

/-- C2 counterexample: the claim says a fragment marked `done` terminates
the yielded sequence, so the fragment list `[done-marked, response "x"]`
should yield nothing; the decoder actually yields `["x"]`, because the
loop skips `done`-marked fragments without breaking. -/
theorem c2_counterexample :
    streamYields [Fragment.obj none true, Fragment.obj (some "x") false] = ["x"] ∧
    (["x"] : List String) ≠ [] := by
  exact ⟨rfl, by decide⟩

/-- C2 amended: `stream()` yields exactly the `response` field of each
well-formed fragment that carries a `response` and is not marked `done`,
in input order; malformed fragments are skipped without failing; a
`done`-marked fragment contributes no yield but does not terminate the
sequence — well-formed fragments after it still yield. -/
theorem c2_stream_decoder (fs : List Fragment) :
    streamYields fs = streamYieldsSpec fs := by
  induction fs with
  | nil => rfl
  | cons f rest ih =>
    cases f with
    | empty => simpa [streamYields, streamYieldsSpec] using ih
    | malformed => simpa [streamYields, streamYieldsSpec] using ih
    | obj r done =>
      cases r with
      | none => simpa [streamYields, streamYieldsSpec] using ih
      | some s =>
        cases done <;> simp [streamYields, streamYieldsSpec] <;>
          simpa [streamYieldsSpec] using ih

/-- C8 counterexample: the claim says construction fails for an empty `id`
or an empty `system_prompt`; pydantic validation actually accepts both
empty strings (only presence is required). -/
theorem c8_counterexample :
    Persona.validate { id := some "", name := some "n", system_prompt := some "" } =
      Except.ok ⟨"", "n", "", "", 7/10, []⟩ := by
  norm_num [Persona.validate]

/-- C8 amended: persona construction fails for every temperature outside
`[0.0, 2.0]` while values inside the range (hence the boundaries 0.0 and
2.0) succeed, and fails when `id` or `system_prompt` is missing; an empty
`id` or `system_prompt` string is accepted — non-emptiness is not
enforced. -/
theorem c8_persona_validation (i n sp : String) (d : Option String)
    (tr : Option (List String)) (t : Rat) :
    (¬ (0 ≤ t ∧ t ≤ 2) →
      Persona.validate ⟨some i, some n, some sp, d, some t, tr⟩ =
        Except.error "temperature: outside ge=0.0 le=2.0") ∧
    ((0 ≤ t ∧ t ≤ 2) →
      Persona.validate ⟨some i, some n, some sp, d, some t, tr⟩ =
        Except.ok ⟨i, n, sp, d.getD "", t, tr.getD []⟩) ∧
    Persona.validate { name := some n, system_prompt := some sp } =
      Except.error "field required" ∧
    Persona.validate { id := some i, name := some n } =
      Except.error "field required" := by
  refine ⟨fun h => ?_, fun h => ?_, rfl, rfl⟩ <;> simp [Persona.validate, h]

/-- C8 witness: temperature 3 is rejected while the boundary values 2 and 0
are accepted. -/
theorem c8_persona_validation_witness :
    Persona.validate ⟨some "x", some "y", some "z", none, some 3, none⟩ =
      Except.error "temperature: outside ge=0.0 le=2.0" ∧
    Persona.validate ⟨some "x", some "y", some "z", none, some 2, none⟩ =
      Except.ok ⟨"x", "y", "z", "", 2, []⟩ ∧
    Persona.validate ⟨some "x", some "y", some "z", none, some 0, none⟩ =
      Except.ok ⟨"x", "y", "z", "", 0, []⟩ :=
  ⟨(c8_persona_validation "x" "y" "z" none none 3).1 (by norm_num),
   (c8_persona_validation "x" "y" "z" none none 2).2.1 (by norm_num),
   (c8_persona_validation "x" "y" "z" none none 0).2.1 (by norm_num)⟩

/-- C9: on a non-empty character set of size `n`, `next_character` sets the
selection to `(i+1) mod n` and `previous_character` to `(i-1+n) mod n`, so
for a valid selection index the two compose to the identity in either
order; on an empty set both are no-ops. -/
theorem c9_circular_navigation (p : CharacterPane) :
    (p.characters = [] →
      p.next_character = p ∧ p.previous_character = p) ∧
    (p.characters ≠ [] →
      p.next_character.selected_index =
        (p.selected_index + 1) % (p.characters.length : Int) ∧
      p.previous_character.selected_index =
        (p.selected_index - 1 + (p.characters.length : Int)) %
          (p.characters.length : Int)) ∧
    (0 ≤ p.selected_index → p.selected_index < (p.characters.length : Int) →
      p.next_character.previous_character = p ∧
      p.previous_character.next_character = p) := by
  obtain ⟨cs, i⟩ := p
  refine ⟨fun h => ?_, fun h => ?_, fun h0 h1 => ?_⟩
  · subst h
    simp [CharacterPane.next_character, CharacterPane.previous_character]
  · have hne : cs.isEmpty = false := by
      simpa [List.isEmpty_iff] using h
    constructor
    · simp [CharacterPane.next_character, hne]
    · simp only [CharacterPane.previous_character, hne, Bool.false_eq_true,
        if_false]
      simp
  · have hne : cs.isEmpty = false := by
      rcases cs with _ | _
      · exact absurd (lt_of_le_of_lt h0 h1) (by norm_num)
      · rfl
    constructor
    · simp [CharacterPane.next_character, CharacterPane.previous_character, hne,
        emod_roundtrip_next_prev i (cs.length : Int) h0 h1]
    · simp [CharacterPane.next_character, CharacterPane.previous_character, hne,
        emod_roundtrip_prev_next i (cs.length : Int) h0 h1]

/-- C9 witness: on a two-character pane with selection 0, `next` moves to 1,
`previous` wraps to 1, and the two compose to the identity. -/
theorem c9_circular_navigation_witness :
    (CharacterPane.mk [charA, charB] 0).next_character.selected_index =
      (0 + 1) % ((2 : Nat) : Int) ∧
    (CharacterPane.mk [charA, charB] 0).previous_character.selected_index =
      (0 - 1 + ((2 : Nat) : Int)) % ((2 : Nat) : Int) ∧
    (CharacterPane.mk [charA, charB] 0).next_character.previous_character =
      CharacterPane.mk [charA, charB] 0 :=
  ⟨((c9_circular_navigation (CharacterPane.mk [charA, charB] 0)).2.1
      (by decide)).1,
   ((c9_circular_navigation (CharacterPane.mk [charA, charB] 0)).2.1
      (by decide)).2,
   ((c9_circular_navigation (CharacterPane.mk [charA, charB] 0)).2.2
      (by decide) (by decide)).1⟩

/-- C10: the claimed invariant — the character set is empty or
`active_index` is a valid index — is broken by a shrinking `reload`: after
loading `[a, b]`, activating `b` and reloading a directory that now holds
only `[a]`, the set is non-empty, the invariant fails, and
`get_active_character` raises `IndexError` instead of returning a
character. -/
theorem c10_shrinking_reload_breaks_selection :
    (((CharacterManager.init [charA, charB]).set_active_character "b").reload
        [charA]).characters ≠ [] ∧
    ¬ (((CharacterManager.init [charA, charB]).set_active_character "b").reload
        [charA]).indexInvariant ∧
    (((CharacterManager.init [charA, charB]).set_active_character "b").reload
        [charA]).get_active_character =
      Except.error "IndexError: list index out of range" := by
  refine ⟨by decide, ?_, rfl⟩
  intro h
  rcases h with h | h
  · exact absurd h (by decide)
  · exact absurd h (by decide)

/-- C1: for every streamed turn that runs to its natural end with both add
calls succeeding, the event trace is exactly the memory query, the
generation call, the yielded chunks in stream order, and then — after the
last chunk — the two store calls in order: first
`User said: {M}` tagged `["conversation", "user"]`, then
`Assistant replied: {R}` tagged `["conversation", "assistant"]` where `R`
is the concatenation of the chunks, both owned by the persona id. -/
theorem c1_streaming_turn (env : Env) (gsp M : String) (P : Character)
    (hist : List Message) (fs : List Fragment) (i1 i2 : String)
    (hs : env.streamOutcome = .fragments fs)
    (h1 : env.store1 = .ok i1) (h2 : env.store2 = .ok i2)
    (hid : P.id ≠ "") :
    MessageHandler.process_message_streaming env gsp M P hist none =
      ([Event.queryCall M 5 (some P.id),
        Event.generateCall
          (MessageHandler.build_prompt M
            (MessageHandler.build_memory_context (MemoryClient.query env (some P.id)))
            (MessageHandler.build_conversation_context hist))
          (gsp ++ "\n\n" ++ P.system_prompt) P.temperature] ++
        (streamYields fs).map Event.yieldChunk ++
        [Event.storeCall ("User said: " ++ M) ["conversation", "user"] P.id,
         Event.storeCall ("Assistant replied: " ++ String.join (streamYields fs))
           ["conversation", "assistant"] P.id],
       TurnResult.ok) := by
  have hidb : P.id.isEmpty = false := by
    cases hh : P.id.isEmpty
    · rfl
    · exact absurd ((String.isEmpty_iff P.id).mp hh) hid
  simp [MessageHandler.process_message_streaming, hs,
        MessageHandler.store_conversation, MemoryClient.store, pyFalsy,
        hidb, h1, h2]

/-- C1 witness: the spec scenario — persona `default`, user sends `Hello`,
memory query returns `[]`, the stream yields `Hi`, ` there`, `!` then
`done=true`; the assistant response is exactly `Hi there!` and the two
store calls follow the chunks in order, both owned by `default`. -/
theorem c1_streaming_turn_witness :
    MessageHandler.process_message_streaming envHello "G" "Hello"
        defaultCharacter [] none =
      ([Event.queryCall "Hello" 5 (some "default"),
        Event.generateCall "User: Hello" "G\n\nYou are helpful." (7/10),
        Event.yieldChunk "Hi", Event.yieldChunk " there", Event.yieldChunk "!",
        Event.storeCall "User said: Hello" ["conversation", "user"] "default",
        Event.storeCall "Assistant replied: Hi there!"
          ["conversation", "assistant"] "default"],
       TurnResult.ok) := by
  have h := c1_streaming_turn envHello "G" "Hello" defaultCharacter []
    [.obj (some "Hi") false, .obj (some " there") false, .obj (some "!") false,
     .obj none true]
    "m1" "m2" rfl rfl rfl (by decide)
  simpa [MessageHandler.build_prompt, MessageHandler.build_memory_context,
         MessageHandler.build_conversation_context, MemoryClient.query,
         pyFalsy, streamYields, envHello, defaultCharacter] using h

/-- C3: when the generation backend refuses the connection, the caller
receives exactly one system-role message, that message starts with
`Error:`, and zero memory store calls are issued for the turn. -/
theorem c3_connect_error (env : Env) (gsp value emsg : String) (P : Character)
    (hist : List Message)
    (hs : env.streamOutcome = .connectError emsg)
    (hv : (pyStrip value).isEmpty = false) :
    ((WintermuteApp.on_input_submitted env gsp value P hist).2.countP
        (fun m => m.role == MessageRole.system)) = 1 ∧
    (∀ m ∈ (WintermuteApp.on_input_submitted env gsp value P hist).2,
        m.role = MessageRole.system → ∃ r, m.content = "Error: " ++ r) ∧
    ((WintermuteApp.on_input_submitted env gsp value P hist).1.countP
        Event.isStore) = 0 := by
  refine ⟨?_, ?_, ?_⟩ <;>
    simp [WintermuteApp.on_input_submitted, hv,
          MessageHandler.process_message_streaming, hs, List.countP_cons,
          Event.isStore]

/-- C3 witness: the connection-refused scenario at a concrete turn. -/
theorem c3_connect_error_witness :
    ((WintermuteApp.on_input_submitted envRefused "G" "Hello" defaultCharacter
        []).2.countP (fun m => m.role == MessageRole.system)) = 1 ∧
    (∀ m ∈ (WintermuteApp.on_input_submitted envRefused "G" "Hello"
        defaultCharacter []).2,
        m.role = MessageRole.system → ∃ r, m.content = "Error: " ++ r) ∧
    ((WintermuteApp.on_input_submitted envRefused "G" "Hello" defaultCharacter
        []).1.countP Event.isStore) = 0 :=
  c3_connect_error envRefused "G" "Hello" "connection refused"
    defaultCharacter [] rfl (by decide)

/-- C4: `MemoryClient.store` raises when called without a resolvable owner
id (missing or empty) and propagates an SDK add failure to its caller;
yet when the first add call of a turn fails during persisting, the failure
is absorbed by `_store_conversation` and the streaming pipeline still
delivers the full chunk sequence with the turn ending normally. -/
theorem c4_store_hard_turn_soft (outcome : Except String String)
    (e i gsp M : String) (env : Env) (P : Character) (hist : List Message)
    (fs : List Fragment)
    (hs : env.streamOutcome = .fragments fs)
    (_h1 : env.store1 = .error e) (hi : i ≠ "") :
    MemoryClient.store outcome none =
      Except.error (.valueError
        "user_id (character_id) is required for storing memories") ∧
    MemoryClient.store outcome (some "") =
      Except.error (.valueError
        "user_id (character_id) is required for storing memories") ∧
    MemoryClient.store (Except.error e) (some i) =
      Except.error (.serviceError e) ∧
    (MessageHandler.process_message_streaming env gsp M P hist none).1.filterMap
      Event.yielded = streamYields fs ∧
    (MessageHandler.process_message_streaming env gsp M P hist none).2 =
      TurnResult.ok := by
  have hib : i.isEmpty = false := by
    cases hh : i.isEmpty
    · rfl
    · exact absurd ((String.isEmpty_iff i).mp hh) hi
  refine ⟨rfl, rfl, by simp [MemoryClient.store, pyFalsy, hib], ?_, ?_⟩
  · simp [MessageHandler.process_message_streaming, hs, List.filterMap_append,
          Event.yielded, filterMap_yielded_map_yieldChunk,
          filterMap_yielded_comp, filterMap_yielded_store_conversation]
  · simp [MessageHandler.process_message_streaming, hs]

/-- C4 witness: a concrete turn whose first add call fails still yields its
single chunk and ends normally, and the store contract rejects a missing
owner at a concrete call. -/
theorem c4_store_hard_turn_soft_witness :
    MemoryClient.store (Except.ok "m9") none =
      Except.error (.valueError
        "user_id (character_id) is required for storing memories") ∧
    MemoryClient.store (Except.error "boom") (some "default") =
      Except.error (.serviceError "boom") ∧
    (MessageHandler.process_message_streaming envStoreFails "G" "Hello"
        defaultCharacter [] none).1.filterMap Event.yielded =
      streamYields [.obj (some "Hi") false, .obj none true] ∧
    (MessageHandler.process_message_streaming envStoreFails "G" "Hello"
        defaultCharacter [] none).2 = TurnResult.ok :=
  ⟨(c4_store_hard_turn_soft (Except.ok "m9") "boom" "default" "G" "Hello"
      envStoreFails defaultCharacter []
      [.obj (some "Hi") false, .obj none true] rfl rfl (by decide)).1,
   (c4_store_hard_turn_soft (Except.ok "m9") "boom" "default" "G" "Hello"
      envStoreFails defaultCharacter []
      [.obj (some "Hi") false, .obj none true] rfl rfl (by decide)).2.2.1,
   (c4_store_hard_turn_soft (Except.ok "m9") "boom" "default" "G" "Hello"
      envStoreFails defaultCharacter []
      [.obj (some "Hi") false, .obj none true] rfl rfl (by decide)).2.2.2.1,
   (c4_store_hard_turn_soft (Except.ok "m9") "boom" "default" "G" "Hello"
      envStoreFails defaultCharacter []
      [.obj (some "Hi") false, .obj none true] rfl rfl (by decide)).2.2.2.2⟩

/-- C5: when the memory service raises on query, `MemoryClient.query`
returns the empty list for every query input, and the turn still proceeds
to prompt assembly and generation: the generation call is issued with the
prompt built from an empty memory context, and the stream chunks are all
delivered. -/
theorem c5_query_soft_fail (env : Env) (e gsp M : String) (P : Character)
    (hist : List Message) (fs : List Fragment) (uid : Option String)
    (hq : env.queryOutcome = .error e)
    (hs : env.streamOutcome = .fragments fs) :
    MemoryClient.query env uid = [] ∧
    Event.generateCall
        (MessageHandler.build_prompt M ""
          (MessageHandler.build_conversation_context hist))
        (gsp ++ "\n\n" ++ P.system_prompt) P.temperature ∈
      (MessageHandler.process_message_streaming env gsp M P hist none).1 ∧
    (MessageHandler.process_message_streaming env gsp M P hist none).1.filterMap
      Event.yielded = streamYields fs := by
  have hquery : MemoryClient.query env uid = [] := by
    cases uid with
    | none => rfl
    | some u => simp [MemoryClient.query, hq]
  have hquery2 : MemoryClient.query env (some P.id) = [] := by
    simp [MemoryClient.query, hq]
  refine ⟨hquery, ?_, ?_⟩
  · simp [MessageHandler.process_message_streaming, hs, hquery2,
          MessageHandler.build_memory_context]
  · simp [MessageHandler.process_message_streaming, hs, hquery2,
          List.filterMap_append, Event.yielded, filterMap_yielded_map_yieldChunk,
          filterMap_yielded_comp, filterMap_yielded_store_conversation]

/-- C5 witness: the memory-backend-raises scenario at a concrete turn. -/
theorem c5_query_soft_fail_witness :
    MemoryClient.query envQueryFails (some "default") = [] ∧
    Event.generateCall "User: Hello" "G\n\nYou are helpful." (7/10) ∈
      (MessageHandler.process_message_streaming envQueryFails "G" "Hello"
        defaultCharacter [] none).1 ∧
    (MessageHandler.process_message_streaming envQueryFails "G" "Hello"
        defaultCharacter [] none).1.filterMap Event.yielded =
      streamYields [.obj (some "Hi") false, .obj none true] := by
  have h := c5_query_soft_fail envQueryFails "memory down" "G" "Hello"
    defaultCharacter [] [.obj (some "Hi") false, .obj none true]
    (some "default") rfl rfl
  simpa [MessageHandler.build_prompt, MessageHandler.build_conversation_context,
         defaultCharacter] using h

/-- C6 counterexample: the claim says a turn whose consumer stops after
chunk `a` of `a, b` still hands the accumulated text to the two store
calls; the generator is actually closed at the suspended yield, the trace
ends with the yielded chunk, and in particular the user store call the
claim requires is absent. -/
theorem c6_counterexample :
    MessageHandler.process_message_streaming envTwoChunks "g" "m" charA []
        (some 1) =
      ([Event.queryCall "m" 5 (some "a"),
        Event.generateCall "User: m" "g\n\npa" (7/10),
        Event.yieldChunk "a"], TurnResult.closed) ∧
    Event.storeCall "User said: m" ["conversation", "user"] "a" ∉
      (MessageHandler.process_message_streaming envTwoChunks "g" "m" charA []
        (some 1)).1 := by
  constructor
  · rfl
  · decide

/-- C6 amended: on caller-initiated early termination after `k` of the
stream chunks, the consumer has received exactly the first `k` chunks, the
generator is closed, and no store call at all is issued for the turn — the
accumulated text reaches the persisting step only on natural
end-of-sequence. -/
theorem c6_early_termination (env : Env) (gsp M : String) (P : Character)
    (hist : List Message) (fs : List Fragment) (k : Nat)
    (hs : env.streamOutcome = .fragments fs)
    (hk1 : 1 ≤ k) (hk2 : k ≤ (streamYields fs).length) :
    (MessageHandler.process_message_streaming env gsp M P hist (some k)).1.countP
      Event.isStore = 0 ∧
    (MessageHandler.process_message_streaming env gsp M P hist (some k)).2 =
      TurnResult.closed ∧
    (MessageHandler.process_message_streaming env gsp M P hist (some k)).1.filterMap
      Event.yielded = (streamYields fs).take k := by
  refine ⟨?_, ?_, ?_⟩ <;>
    simp [MessageHandler.process_message_streaming, hs, hk1, hk2,
          List.countP_append, List.countP_cons, Event.isStore,
          countP_isStore_take_yieldChunk, List.filterMap_append, Event.yielded,
          filterMap_yielded_take_yieldChunk]

/-- C6 witness: stopping after the first of two chunks closes the turn with
no store call and exactly that chunk delivered. -/
theorem c6_early_termination_witness :
    (MessageHandler.process_message_streaming envTwoChunks "g" "m" charB []
      (some 1)).1.countP Event.isStore = 0 ∧
    (MessageHandler.process_message_streaming envTwoChunks "g" "m" charB []
      (some 1)).2 = TurnResult.closed ∧
    (MessageHandler.process_message_streaming envTwoChunks "g" "m" charB []
      (some 1)).1.filterMap Event.yielded =
      (streamYields [.obj (some "a") false, .obj (some "b") false]).take 1 :=
  c6_early_termination envTwoChunks "g" "m" charB []
    [.obj (some "a") false, .obj (some "b") false] 1 rfl (by decide) (by decide)

end Wintermute
